import Mathlib

/-!
Verification of the GlobalLeaderboards SDK (TypeScript) against its
natural-language specification.  The development shallowly embeds the
offline submission queue (`src/offline-queue.ts`), the facade's drain and
validation logic (`GlobalLeaderboards` class), and the WebSocket client
state machine (`src/websocket.ts`) as executable Lean definitions, and
proves the specification's claims about them.
-/

set_option maxHeartbeats 1000000
set_option maxRecDepth 100000

namespace SdkModel

/-! ## Offline queue data model (`src/offline-queue.ts`) -/

/-- One entry of the `scores` array carried by a queued `submitBulk`
operation (mirrors the `SubmitScoreRequest` wire shape). -/
structure SubmitScoreRequest where
  user_id : String
  user_name : String
  score : Int
  leaderboard_id : String
  metadata : Option String
deriving DecidableEq, Repr

/-- The `params` record of a queued operation.  All fields are optional in
the TypeScript source; `metadata` is treated as an opaque payload. -/
structure QueueParams where
  userId : Option String
  score : Option Int
  leaderboardId : Option String
  userName : Option String
  metadata : Option String
  scores : Option (List SubmitScoreRequest)
deriving DecidableEq, Repr

/-- `QueuedOperation` from `src/types.ts` / `src/offline-queue.ts`. -/
structure QueuedOperation where
  queueId : String
  timestamp : Int
  retryCount : Nat
  method : String
  params : QueueParams
deriving DecidableEq, Repr

/-- Events emitted by the queue (`queue:added`, `queue:failed`,
`queue:progress`). -/
inductive QueueEvent where
  | added (op : QueuedOperation)
  | failed (op : QueuedOperation) (permanent : Bool)
  | progress (processed : Nat) (total : Nat)
deriving DecidableEq, Repr

/-- Truthiness of an optional string in JavaScript: present and
non-empty. -/
def truthyStr : Option String → Bool
  | none => false
  | some s => s ≠ ""

namespace OfflineQueue

def MAX_QUEUE_SIZE : Nat := 1000
def QUEUE_TTL_MS : Int := 24 * 60 * 60 * 1000
def MAX_BATCH_SIZE : Nat := 100

/-- `cleanExpiredItems`: keep operations whose age `now - timestamp` is
strictly below the 24h TTL. -/
def cleanExpiredItems (now : Int) (queue : List QueuedOperation) :
    List QueuedOperation :=
  queue.filter (fun op => now - op.timestamp < QUEUE_TTL_MS)

/-- `enqueue` acknowledgement (`QueuedSubmitResponse`). -/
structure QueuedSubmitResponse where
  queued : Bool
  queueId : String
  queuePosition : Nat
  operation : String
  rank : Int
deriving DecidableEq, Repr

/-- `enqueue`: reject when the queue already holds `MAX_QUEUE_SIZE` items;
otherwise append the stamped operation, emit `queue:added`, and return the
acknowledgement.  On rejection nothing is appended, persisted or
emitted. -/
def enqueue (queue : List QueuedOperation) (method : String)
    (params : QueueParams) (queueId : String) (now : Int) :
    Except String (QueuedSubmitResponse × List QueuedOperation × List QueueEvent) :=
  let queuedOp : QueuedOperation :=
    { queueId := queueId, timestamp := now, retryCount := 0,
      method := method, params := params }
  if queue.length ≥ MAX_QUEUE_SIZE then
    Except.error "Queue is full (max 1000 items)"
  else
    let newQueue := queue ++ [queuedOp]
    Except.ok
      ({ queued := true, queueId := queueId, queuePosition := newQueue.length,
         operation := "insert", rank := -1 },
       newQueue, [QueueEvent.added queuedOp])

/-- `getQueue` returns a copy of the queue. -/
def getQueue (queue : List QueuedOperation) : List QueuedOperation := queue

/-- Insertion-ordered `Map.set`-with-push used while grouping submit
operations: append `op` to the group keyed `k`, creating the group at the
end when absent (mirrors `if (!groups.has(key)) groups.set(key, []);
groups.get(key)!.push(op)`). -/
def addToGroup (gs : List (String × List QueuedOperation)) (k : String)
    (op : QueuedOperation) : List (String × List QueuedOperation) :=
  match gs with
  | [] => [(k, [op])]
  | (k0, ops) :: rest =>
    if k0 = k then (k0, ops ++ [op]) :: rest
    else (k0, ops) :: addToGroup rest k op

/-- Insertion-ordered `Map.set` used for `submitBulk` singletons: replace
in place when the key exists, append otherwise. -/
def setGroup (gs : List (String × List QueuedOperation)) (k : String)
    (v : List QueuedOperation) : List (String × List QueuedOperation) :=
  match gs with
  | [] => [(k, v)]
  | (k0, ops) :: rest =>
    if k0 = k then (k0, v) :: rest
    else (k0, ops) :: setGroup rest k v

/-- First phase of `batchOperations`: walk the queue, grouping `submit`
operations with a truthy `leaderboardId` by that id and isolating
`submitBulk` operations as singleton groups keyed `bulk_<queueId>`. -/
def buildGroups : List QueuedOperation → List (String × List QueuedOperation) →
    List (String × List QueuedOperation)
  | [], gs => gs
  | op :: rest, gs =>
    if op.method = "submit" ∧ truthyStr op.params.leaderboardId then
      buildGroups rest (addToGroup gs (op.params.leaderboardId.getD "") op)
    else if op.method = "submitBulk" then
      buildGroups rest (setGroup gs ("bulk_" ++ op.queueId) [op])
    else
      buildGroups rest gs

/-- Second phase of `batchOperations` for an oversized group: the loop
`for (let i = 0; i < ops.length; i += MAX_BATCH_SIZE)` emitting contiguous
slices keyed `<key>_<i>`. -/
def splitGroup (key : String) (i : Nat) (ops : List QueuedOperation) :
    List (String × List QueuedOperation) :=
  if h : ops = [] then []
  else
    (key ++ "_" ++ toString i, ops.take MAX_BATCH_SIZE) ::
      splitGroup key (i + MAX_BATCH_SIZE) (ops.drop MAX_BATCH_SIZE)
termination_by ops.length
decreasing_by
  simp only [List.length_drop, MAX_BATCH_SIZE]
  have : ops.length ≠ 0 := fun hz => h (List.eq_nil_of_length_eq_zero hz)
  omega

/-- Second phase of `batchOperations`: groups above the 100-item cap are
split into contiguous sub-batches; the rest pass through unchanged. -/
def limitGroups (gs : List (String × List QueuedOperation)) :
    List (String × List QueuedOperation) :=
  gs.flatMap (fun g =>
    if g.2.length > MAX_BATCH_SIZE then splitGroup g.1 0 g.2 else [g])

/-- `batchOperations`: clean expired items first, then group and cap.
Returns the batches together with the cleaned queue (the queue field after
the call). -/
def batchOperations (now : Int) (queue : List QueuedOperation) :
    List (String × List QueuedOperation) × List QueuedOperation :=
  let cleaned := cleanExpiredItems now queue
  (limitGroups (buildGroups cleaned []), cleaned)

/-- `removeProcessed`: drop every operation whose id is listed. -/
def removeProcessed (queue : List QueuedOperation) (queueIds : List String) :
    List QueuedOperation :=
  queue.filter (fun op => op.queueId ∉ queueIds)

/-- Increment the retry count of the first operation with the given id
(mirrors the in-place mutation of the object returned by `find`). -/
def incRetryFirst : List QueuedOperation → String → List QueuedOperation
  | [], _ => []
  | op :: rest, qid =>
    if op.queueId = qid then
      { op with retryCount := op.retryCount + 1 } :: rest
    else op :: incRetryFirst rest qid

/-- `markFailed`: when the id is found, a permanent failure removes every
operation with that id and emits one `queue:failed` event carrying the
found operation with `permanent := true`; a transient failure increments
the found operation's retry count.  An unknown id is a no-op. -/
def markFailed (queue : List QueuedOperation) (queueId : String)
    (permanent : Bool) : List QueuedOperation × List QueueEvent :=
  match queue.find? (fun o => o.queueId = queueId) with
  | none => (queue, [])
  | some op =>
    if permanent then
      (queue.filter (fun o => o.queueId ≠ queueId),
       [QueueEvent.failed op true])
    else
      (incRetryFirst queue queueId, [])

end OfflineQueue

/-! ## Facade (`GlobalLeaderboards` class, main SDK entry point) -/

namespace GlobalLeaderboards

/-- Result of one bulk-submit REST call made during a drain pass:
success, an HTTP-status-carrying `GlobalLeaderboardsError`, or any other
error (network failure, wrapper error without a status, ...). -/
inductive ReqResult where
  | success
  | httpError (status : Nat)
  | otherError
deriving DecidableEq, Repr

/-- Status codes classified as permanent by `processOfflineQueue`
(`error.statusCode === 404 || 401 || 403`). -/
def isPermanentStatus (s : Nat) : Bool :=
  s = 404 || s = 401 || s = 403

/-- Mark every operation of a failed batch as permanently failed, in batch
order (`for (const op of operations) markFailed(op.queueId, true)`). -/
def markFailedAll : List QueuedOperation → List QueuedOperation →
    List QueuedOperation × List QueueEvent
  | queue, [] => (queue, [])
  | queue, op :: rest =>
    let r1 := OfflineQueue.markFailed queue op.queueId true
    let r2 := markFailedAll r1.1 rest
    (r2.1, r1.2 ++ r2.2)

/-- One drain pass over the batches returned by `batchOperations`
(`processOfflineQueue`).  `outcome i` is the result of the bulk-submit
REST call made for the batch at position `i` (consulted only when that
batch issues a request).  `tp` carries `totalProcessed`.  Per batch:

* a `bulk_` batch whose head operation has no `scores` payload issues no
  request and removes nothing, but still emits the progress event;
* a successful request removes the processed ids and emits a progress
  event with the updated counters;
* a request failing with HTTP 401/403/404 marks every operation of the
  batch permanently failed and continues with the next batch;
* any other failure stops the pass (`break`), leaving the queue as is. -/
def processPass (outcome : Nat → ReqResult) :
    Nat → Nat → List (String × List QueuedOperation) →
    List QueuedOperation → List QueuedOperation × List QueueEvent
  | _, _, [], queue => (queue, [])
  | i, tp, (key, operations) :: rest, queue =>
    if key.startsWith "bulk_" then
      match operations.head? with
      | none =>
        -- `operations[0]` is undefined; reading `.params` throws a
        -- TypeError which the catch treats as a transient error: break.
        (queue, [])
      | some op =>
        match op.params.scores with
        | none =>
          -- no request made; the progress event still fires
          let ev := QueueEvent.progress tp (queue.length + tp)
          let r := processPass outcome (i + 1) tp rest queue
          (r.1, ev :: r.2)
        | some _ =>
          match outcome i with
          | ReqResult.success =>
            let queue2 := OfflineQueue.removeProcessed queue [op.queueId]
            let tp2 := tp + 1
            let ev := QueueEvent.progress tp2 (queue2.length + tp2)
            let r := processPass outcome (i + 1) tp2 rest queue2
            (r.1, ev :: r.2)
          | ReqResult.httpError s =>
            if isPermanentStatus s then
              let m := markFailedAll queue operations
              let r := processPass outcome (i + 1) tp rest m.1
              (r.1, m.2 ++ r.2)
            else (queue, [])
          | ReqResult.otherError => (queue, [])
    else
      match outcome i with
      | ReqResult.success =>
        let queue2 :=
          OfflineQueue.removeProcessed queue (operations.map (·.queueId))
        let tp2 := tp + operations.length
        let ev := QueueEvent.progress tp2 (queue2.length + tp2)
        let r := processPass outcome (i + 1) tp2 rest queue2
        (r.1, ev :: r.2)
      | ReqResult.httpError s =>
        if isPermanentStatus s then
          let m := markFailedAll queue operations
          let r := processPass outcome (i + 1) tp rest m.1
          (r.1, m.2 ++ r.2)
        else (queue, [])
      | ReqResult.otherError => (queue, [])

/-- Whether the drain pass issues a bulk-submit REST call for a batch: a
`bulk_` batch only when its head operation carries a `scores` payload,
every other batch always. -/
def batchMakesRequest (key : String) (ops : List QueuedOperation) : Bool :=
  if key.startsWith "bulk_" then
    match ops.head? with
    | none => false
    | some op => op.params.scores.isSome
  else true

/-! ### `submit` validation -/

/-- The third argument of `submit`: absent, a leaderboard-id string or an
options object. -/
inductive SubmitArg where
  | noArg
  | lbId (s : String)
  | opts (leaderboardId : Option String) (userName : Option String)
      (metadata : Option String)
deriving DecidableEq, Repr

/-- JavaScript `a || b` on optional strings: the empty string is falsy. -/
def orFalsy (a b : Option String) : Option String :=
  match a with
  | some s => if s = "" then b else some s
  | none => b

/-- One character of the allow-list pattern
`^[a-zA-Z0-9À-ſ()._\- ]+$`. -/
def isAllowedUserNameChar (c : Char) : Bool :=
  (97 ≤ c.toNat && c.toNat ≤ 122) ||   -- a-z
  (65 ≤ c.toNat && c.toNat ≤ 90) ||    -- A-Z
  (48 ≤ c.toNat && c.toNat ≤ 57) ||    -- 0-9
  (0xC0 ≤ c.toNat && c.toNat ≤ 0x17F) ||
  c = '(' || c = ')' || c = '.' || c = '_' || c = '-' || c = ' '

/-- The full-string regex test: non-empty and every character allowed. -/
def userNamePatternTest (s : String) : Bool :=
  s.length ≥ 1 && s.data.all isAllowedUserNameChar

/-- The outcome of a `submit` call: a synchronously thrown validation
error (by code), a queued operation, or a direct REST request.  A thrown
error enqueues and sends nothing, by construction. -/
inductive SubmitOutcome where
  | threw (code : String)
  | enqueued (params : QueueParams)
  | sentRequest (req : SubmitScoreRequest)
deriving DecidableEq, Repr

/-- Context consulted by `submit`: the configured default leaderboard id,
the connectivity flag and whether the offline queue already holds
items. -/
structure SubmitContext where
  defaultLeaderboardId : Option String
  isOnline : Bool
  queueHasItems : Bool
deriving DecidableEq, Repr

/-- The `leaderboardId` carried by the third `submit` argument (a plain
string argument is itself the leaderboard id). -/
def argLeaderboardId : SubmitArg → Option String
  | SubmitArg.noArg => none
  | SubmitArg.lbId s => some s
  | SubmitArg.opts lb _ _ => lb

/-- The `userName` option of the third `submit` argument. -/
def argUserName : SubmitArg → Option String
  | SubmitArg.opts _ n _ => n
  | _ => none

/-- The `metadata` option of the third `submit` argument. -/
def argMetadata : SubmitArg → Option String
  | SubmitArg.opts _ _ m => m
  | _ => none

/-- `GlobalLeaderboards.submit` up to the routing decision: validation of
the score, resolution of the leaderboard id, validation of the effective
user name (pattern first, then 1..50 length), then either enqueue (offline
or non-empty queue) or a direct request. -/
def submit (ctx : SubmitContext) (userId : String) (score : Int)
    (arg : SubmitArg) : SubmitOutcome :=
  if score < 0 then SubmitOutcome.threw "INVALID_SCORE"
  else
    let optLb : Option String := argLeaderboardId arg
    let optName : Option String := argUserName arg
    let optMeta : Option String := argMetadata arg
    match orFalsy optLb ctx.defaultLeaderboardId with
    | none => SubmitOutcome.threw "MISSING_LEADERBOARD_ID"
    | some lb =>
      if lb = "" then SubmitOutcome.threw "MISSING_LEADERBOARD_ID"
      else
        let userName := (orFalsy optName (some userId)).getD userId
        if ¬ userNamePatternTest userName then
          SubmitOutcome.threw "INVALID_USERNAME"
        else if userName.length < 1 ∨ userName.length > 50 then
          SubmitOutcome.threw "INVALID_USERNAME_LENGTH"
        else if ¬ ctx.isOnline ∨ ctx.queueHasItems then
          SubmitOutcome.enqueued
            { userId := some userId, score := some score,
              leaderboardId := some lb, userName := some userName,
              metadata := optMeta, scores := none }
        else
          SubmitOutcome.sentRequest
            { user_id := userId, user_name := userName, score := score,
              leaderboard_id := lb, metadata := optMeta }

end GlobalLeaderboards

/-! ## WebSocket client (`src/websocket.ts`, `LeaderboardWebSocket`) -/

namespace LeaderboardWebSocket

/-- Transport readiness (`WebSocket.readyState`). -/
inductive WsReadyState where
  | connecting
  | open
  | closing
  | closed
deriving DecidableEq, Repr

/-- Control/data messages sent by the client. -/
inductive OutMsg where
  | subscribeMsg (leaderboardId : String) (userId : Option String)
  | unsubscribeMsg (leaderboardId : String)
  | ping
  | pong
deriving DecidableEq, Repr

/-- The error object of an inbound `error` message (`message` plus an
optional `code`; a missing code becomes `UNKNOWN_ERROR`). -/
structure ErrObj where
  message : String
  code : Option String
deriving DecidableEq, Repr

/-- Inbound messages dispatched by `handleMessage`.  `errorMsg none`
stands for a malformed error message without a usable `error` object. -/
inductive InMsg where
  | leaderboardUpdate
  | userRankUpdate
  | errorMsg (err : Option ErrObj)
  | ping
  | pong
  | connectionInfo
  | otherKind
deriving DecidableEq, Repr

/-- Observable effects of a step: sends, handler callbacks, thrown
exceptions and — the one C7 cares about — actual connection attempts
(`new WebSocket(url)`). -/
inductive WsOutput where
  | connectAttempt
  | sent (m : OutMsg)
  | onConnectCalled
  | onDisconnectCalled
  | onErrorCalled (code : String)
  | onReconnectingCalled (attempt : Nat) (maxAttempts : Nat) (delayMs : Int)
  | threw (code : String)
deriving DecidableEq, Repr

/-- Client state: the private fields of `LeaderboardWebSocket` (second,
network-aware revision) together with the constructor options.  The
pending reconnect timer stores its delay; `connectedLb` models the
`leaderboard_id` query parameter baked into the connection URL (used by
the `onopen` resubscribe filter). -/
structure WsState where
  ws : Option WsReadyState
  reconnectAttempts : Nat
  reconnectTimer : Option ℚ
  pingTimer : Bool
  subscribedLeaderboards : List String
  isConnecting : Bool
  shouldReconnect : Bool
  permanentError : Option String
  isOnline : Bool
  maxReconnectAttempts : Nat
  reconnectDelay : ℚ
  connectedLb : Option String
deriving DecidableEq, Repr

/-- Constructor state with default options
(`maxReconnectAttempts: 5, reconnectDelay: 1000`), online environment. -/
def initState : WsState :=
  { ws := none, reconnectAttempts := 0, reconnectTimer := none,
    pingTimer := false, subscribedLeaderboards := [], isConnecting := false,
    shouldReconnect := true, permanentError := none, isOnline := true,
    maxReconnectAttempts := 5, reconnectDelay := 1000, connectedLb := none }

/-- `Set.add`: append when absent. -/
def addSet (xs : List String) (x : String) : List String :=
  if x ∈ xs then xs else xs ++ [x]

/-- `Set.delete`: remove every occurrence. -/
def delSet (xs : List String) (x : String) : List String :=
  xs.filter (fun y => y ≠ x)

/-- `isConnected` getter: `ws?.readyState === WebSocket.OPEN`. -/
def isConnected (st : WsState) : Bool :=
  st.ws = some WsReadyState.open

/-- The four permanent error codes of `handleMessage`. -/
def permanentErrorCodes : List String :=
  ["LEADERBOARD_NOT_FOUND", "INVALID_API_KEY",
   "INSUFFICIENT_PERMISSIONS", "INVALID_LEADERBOARD_ID"]

/-- `connect(leaderboardId?, userId?)`: no-op when already open or
connecting; otherwise set `isConnecting`, re-enable reconnection, clear
any previous permanent error, record the optional initial topic and
construct the transport (`ctorOk = false` models the constructor
throwing, which resets `isConnecting` and surfaces the error). -/
def connectFn (st : WsState) (leaderboardId : Option String)
    (ctorOk : Bool) : WsState × List WsOutput :=
  if isConnected st || st.isConnecting then (st, [])
  else
    let st1 := { st with
      isConnecting := true, shouldReconnect := true, permanentError := none,
      subscribedLeaderboards :=
        match leaderboardId with
        | some lb => addSet st.subscribedLeaderboards lb
        | none => st.subscribedLeaderboards,
      connectedLb := leaderboardId }
    if ctorOk then
      ({ st1 with ws := some WsReadyState.connecting },
       [WsOutput.connectAttempt])
    else
      ({ st1 with isConnecting := false },
       [WsOutput.connectAttempt, WsOutput.onErrorCalled "CTOR_ERROR"])

/-- `cleanup`: cancel the reconnect timer, stop the heartbeat, close and
drop the transport, clear `isConnecting`. -/
def cleanup (st : WsState) : WsState :=
  { st with reconnectTimer := none, pingTimer := false, ws := none,
            isConnecting := false }

/-- `disconnect`: disable reconnection, then `cleanup`. -/
def disconnectFn (st : WsState) : WsState :=
  cleanup { st with shouldReconnect := false }

/-- `send`: throws `WS_NOT_CONNECTED` unless the transport is open. -/
def sendFn (st : WsState) (m : OutMsg) : List WsOutput :=
  if isConnected st then [WsOutput.sent m]
  else [WsOutput.threw "WS_NOT_CONNECTED"]

/-- `subscribe(leaderboardId, userId?)`: requires an open transport (else
throws `WS_NOT_CONNECTED`); sends the subscribe message and adds the topic
to the subscription set. -/
def subscribeFn (st : WsState) (leaderboardId : String)
    (userId : Option String) : WsState × List WsOutput :=
  if ¬ isConnected st then (st, [WsOutput.threw "WS_NOT_CONNECTED"])
  else
    ({ st with subscribedLeaderboards :=
                 addSet st.subscribedLeaderboards leaderboardId },
     [WsOutput.sent (OutMsg.subscribeMsg leaderboardId userId)])

/-- `unsubscribe(leaderboardId)`: silently returns when the transport is
absent or not open; otherwise sends the unsubscribe message and removes
the topic from the subscription set. -/
def unsubscribeFn (st : WsState) (leaderboardId : String) :
    WsState × List WsOutput :=
  if ¬ isConnected st then (st, [])
  else
    ({ st with subscribedLeaderboards :=
                 delSet st.subscribedLeaderboards leaderboardId },
     [WsOutput.sent (OutMsg.unsubscribeMsg leaderboardId)])

/-- The jittered exponential backoff delay of `scheduleReconnect`:
`max(0, baseDelay*2^(attempts-1) + (r - 1/2) * 2 * (base*1/4))` for a
jitter source `r` (`Math.random()`). -/
def reconnectDelayFor (reconnectDelay : ℚ) (attempts : Nat) (r : ℚ) : ℚ :=
  let baseDelay := reconnectDelay * 2 ^ (attempts - 1)
  let jitter := baseDelay * (1 / 4)
  let randomJitter := (r - 1 / 2) * 2 * jitter
  max 0 (baseDelay + randomJitter)

/-- `scheduleReconnect`: skipped while offline; surfaces
`WS_MAX_RECONNECT` once the attempt budget is exhausted; otherwise
increments the attempt count, computes the jittered delay, notifies
`onReconnecting(attempt, max, Math.round(delay))` and arms the timer. -/
def scheduleReconnect (st : WsState) (r : ℚ) : WsState × List WsOutput :=
  if ¬ st.isOnline then (st, [])
  else if st.reconnectAttempts ≥ st.maxReconnectAttempts then
    (st, [WsOutput.onErrorCalled "WS_MAX_RECONNECT"])
  else
    let attempts := st.reconnectAttempts + 1
    let delay := reconnectDelayFor st.reconnectDelay attempts r
    ({ st with reconnectAttempts := attempts, reconnectTimer := some delay },
     [WsOutput.onReconnectingCalled attempts st.maxReconnectAttempts
        (round delay)])

/-- `handleMessage`: dispatch one inbound message.  A well-formed error
message with a permanent code disables reconnection, records the permanent
error and closes an open transport with close code 4000; every error path
also invokes the error callback. -/
def handleMessage (st : WsState) (msg : InMsg) : WsState × List WsOutput :=
  match msg with
  | InMsg.leaderboardUpdate => (st, [])
  | InMsg.userRankUpdate => (st, [])
  | InMsg.errorMsg none =>
    (st, [WsOutput.onErrorCalled "INVALID_MESSAGE_FORMAT"])
  | InMsg.errorMsg (some err) =>
    let code := err.code.getD "UNKNOWN_ERROR"
    if code ∈ permanentErrorCodes then
      let st1 := { st with shouldReconnect := false,
                           permanentError := some code }
      let st2 :=
        if st1.ws = some WsReadyState.open then
          { st1 with ws := some WsReadyState.closing }
        else st1
      (st2, [WsOutput.onErrorCalled code])
    else
      (st, [WsOutput.onErrorCalled code])
  | InMsg.ping => (st, sendFn st OutMsg.pong)
  | InMsg.pong => (st, [])
  | InMsg.connectionInfo => (st, [])
  | InMsg.otherKind => (st, [])

/-- The `onopen` transport event: mark connected, reset the attempt
counter, start the heartbeat, fire `onConnect` and resubscribe to every
topic except the one baked into the connection URL. -/
def handleOpen (st : WsState) : WsState × List WsOutput :=
  match st.ws with
  | some WsReadyState.connecting =>
    let st1 := { st with ws := some WsReadyState.open,
                         isConnecting := false, reconnectAttempts := 0,
                         pingTimer := true }
    let resub := st1.subscribedLeaderboards.filter
      (fun lb => some lb ≠ st1.connectedLb)
    (st1, WsOutput.onConnectCalled ::
      resub.map (fun lb => WsOutput.sent (OutMsg.subscribeMsg lb none)))
  | _ => (st, [])

/-- The `onclose` transport event (also fired by a stale handler after
`cleanup` nulled `ws`): clear `isConnecting`, stop the heartbeat, fire
`onDisconnect`, and schedule a reconnect only while `shouldReconnect`
holds. -/
def handleClose (st : WsState) (r : ℚ) : WsState × List WsOutput :=
  let st1 := { st with isConnecting := false, pingTimer := false,
                       ws := match st.ws with
                             | some _ => some WsReadyState.closed
                             | none => none }
  if st1.shouldReconnect then
    let sr := scheduleReconnect st1 r
    (sr.1, WsOutput.onDisconnectCalled :: sr.2)
  else (st1, [WsOutput.onDisconnectCalled])

/-- `reconnect()` (manual): ignored when connected or connecting; throws
the stored permanent error when one exists; otherwise resets the attempt
counter, re-enables reconnection, throws `WS_OFFLINE` while offline and
issues a fresh `connect()` otherwise.  The third component records whether
`connect()` was invoked. -/
def reconnectFn (st : WsState) : WsState × List WsOutput × Bool :=
  if isConnected st || st.isConnecting then (st, [], false)
  else
    match st.permanentError with
    | some code => (st, [WsOutput.threw code], false)
    | none =>
      let st1 := { st with reconnectAttempts := 0, shouldReconnect := true }
      if ¬ st1.isOnline then
        (st1, [WsOutput.threw "WS_OFFLINE"], false)
      else
        let c := connectFn st1 none true
        (c.1, c.2, true)

/-- The `window online` listener: record connectivity; bail out on a
stored permanent error; otherwise connect when disconnected, idle and
reconnection is enabled. -/
def handleOnline (st : WsState) : WsState × List WsOutput :=
  let st1 := { st with isOnline := true }
  match st1.permanentError with
  | some _ => (st1, [])
  | none =>
    if ¬ isConnected st1 ∧ ¬ st1.isConnecting ∧ st1.shouldReconnect then
      connectFn st1 none true
    else (st1, [])

/-- The `window offline` listener: record connectivity and cancel any
pending reconnect timer. -/
def handleOffline (st : WsState) : WsState :=
  { st with isOnline := false, reconnectTimer := none }

/-- A pending reconnect timer firing: the timer is consumed, then the
callback connects when online and reschedules otherwise. -/
def reconnectTimerFire (st : WsState) (r : ℚ) : WsState × List WsOutput :=
  match st.reconnectTimer with
  | none => (st, [])
  | some _ =>
    let st1 := { st with reconnectTimer := none }
    if st1.isOnline then connectFn st1 none true
    else scheduleReconnect st1 r

/-- The heartbeat interval firing: sends a ping only while the transport
is open. -/
def pingTimerFire (st : WsState) : WsState × List WsOutput :=
  if st.pingTimer ∧ isConnected st then (st, [WsOutput.sent OutMsg.ping])
  else (st, [])

/-- External stimuli of the client: API calls, transport events, inbound
messages, connectivity transitions and timer firings.  `r` parameters feed
`Math.random()` where a backoff delay may be computed. -/
inductive WsEvent where
  | connect (leaderboardId : Option String) (ctorOk : Bool)
  | disconnect
  | reconnect
  | subscribe (leaderboardId : String) (userId : Option String)
  | unsubscribe (leaderboardId : String)
  | wsOpen
  | wsClose (r : ℚ)
  | wsMessage (msg : InMsg)
  | netOnline
  | netOffline
  | timerFire (r : ℚ)
  | pingFire
deriving DecidableEq, Repr

/-- One step of the client state machine. -/
def step (st : WsState) : WsEvent → WsState × List WsOutput
  | WsEvent.connect lb ctorOk => connectFn st lb ctorOk
  | WsEvent.disconnect => (disconnectFn st, [])
  | WsEvent.reconnect =>
    let r := reconnectFn st
    (r.1, r.2.1)
  | WsEvent.subscribe lb uid => subscribeFn st lb uid
  | WsEvent.unsubscribe lb => unsubscribeFn st lb
  | WsEvent.wsOpen => handleOpen st
  | WsEvent.wsClose r => handleClose st r
  | WsEvent.wsMessage msg => handleMessage st msg
  | WsEvent.netOnline => handleOnline st
  | WsEvent.netOffline => (handleOffline st, [])
  | WsEvent.timerFire r => reconnectTimerFire st r
  | WsEvent.pingFire => pingTimerFire st

/-- Run a sequence of events, accumulating outputs. -/
def run (st : WsState) : List WsEvent → WsState × List WsOutput
  | [] => (st, [])
  | e :: rest =>
    let s1 := step st e
    let s2 := run s1.1 rest
    (s2.1, s1.2 ++ s2.2)

end LeaderboardWebSocket

/-! ## Queue batching lemmas -/

namespace OfflineQueue

theorem splitGroup_flatten (key : String) (i : Nat)
    (ops : List QueuedOperation) :
    ((splitGroup key i ops).map Prod.snd).flatten = ops := by
  induction i, ops using splitGroup.induct key with
  | case1 i' => simp [splitGroup]
  | case2 i' ops' h ih =>
    rw [splitGroup]
    simp only [h, dite_false, List.map_cons, List.flatten_cons]
    rw [ih, List.take_append_drop]

theorem splitGroup_sizes (key : String) (i : Nat)
    (ops : List QueuedOperation) :
    ∀ g ∈ splitGroup key i ops, g.2.length ≤ MAX_BATCH_SIZE ∧ g.2 ≠ [] := by
  induction i, ops using splitGroup.induct key with
  | case1 i' => simp [splitGroup]
  | case2 i' ops' h ih =>
    rw [splitGroup]
    simp only [h, dite_false, List.mem_cons]
    rintro g (rfl | hg)
    · refine ⟨by simp [List.length_take], ?_⟩
      intro hnil
      have hlen := congrArg List.length hnil
      simp only [List.length_take, List.length_nil, MAX_BATCH_SIZE] at hlen
      have hz : ops'.length = 0 := by omega
      exact h (List.eq_nil_of_length_eq_zero hz)
    · exact ih g hg

theorem splitGroup_length (key : String) (i : Nat)
    (ops : List QueuedOperation) (hne : ops ≠ []) :
    (splitGroup key i ops).length = (ops.length + 99) / 100 := by
  induction i, ops using splitGroup.induct key with
  | case1 i' => exact absurd rfl hne
  | case2 i' ops' h ih =>
    rw [splitGroup]
    simp only [h, dite_false, List.length_cons]
    by_cases hle : ops'.length ≤ MAX_BATCH_SIZE
    · have hdrop : ops'.drop MAX_BATCH_SIZE = [] := by
        rw [List.drop_eq_nil_iff]
        exact hle
      have hnil : splitGroup key (i' + MAX_BATCH_SIZE)
          (ops'.drop MAX_BATCH_SIZE) = [] := by
        rw [hdrop, splitGroup]
        simp
      rw [hnil]
      have hpos : 0 < ops'.length := List.length_pos.mpr h
      simp only [MAX_BATCH_SIZE] at hle
      simp only [List.length_nil]
      omega
    · push_neg at hle
      have hne2 : ops'.drop MAX_BATCH_SIZE ≠ [] := by
        rw [ne_eq, List.drop_eq_nil_iff]
        simp only [MAX_BATCH_SIZE] at hle ⊢
        omega
      rw [ih hne2]
      simp only [List.length_drop, MAX_BATCH_SIZE] at *
      omega

theorem buildGroups_uniform_acc (lb : String) (hlb : lb ≠ "")
    (q : List QueuedOperation)
    (hall : ∀ op ∈ q, op.method = "submit" ∧
      op.params.leaderboardId = some lb) :
    ∀ acc, buildGroups q [(lb, acc)] = [(lb, acc ++ q)] := by
  induction q with
  | nil => intro acc; simp [buildGroups]
  | cons op rest ih =>
    intro acc
    obtain ⟨hm, hid⟩ := hall op (List.mem_cons_self op rest)
    have hrest := fun o ho => hall o (List.mem_cons_of_mem op ho)
    rw [buildGroups]
    rw [if_pos ⟨hm, by simp [hid, truthyStr, hlb]⟩]
    rw [hid]
    have hadd : addToGroup [(lb, acc)] ((some lb).getD "") op =
        [(lb, acc ++ [op])] := by
      simp [addToGroup]
    rw [hadd, ih hrest (acc ++ [op])]
    simp

theorem buildGroups_uniform (lb : String) (hlb : lb ≠ "")
    (q : List QueuedOperation) (hne : q ≠ [])
    (hall : ∀ op ∈ q, op.method = "submit" ∧
      op.params.leaderboardId = some lb) :
    buildGroups q [] = [(lb, q)] := by
  match q, hne with
  | op :: rest, _ =>
    obtain ⟨hm, hid⟩ := hall op (List.mem_cons_self op rest)
    have hrest := fun o ho => hall o (List.mem_cons_of_mem op ho)
    rw [buildGroups]
    rw [if_pos ⟨hm, by simp [hid, truthyStr, hlb]⟩]
    rw [hid]
    have hadd : addToGroup [] ((some lb).getD "") op = [(lb, [op])] := by
      simp [addToGroup]
    rw [hadd, buildGroups_uniform_acc lb hlb rest hrest [op]]
    simp

theorem mem_addToGroup (op : QueuedOperation) (o : QueuedOperation) :
    ∀ (gs : List (String × List QueuedOperation)) (k : String) g,
      g ∈ addToGroup gs k op → o ∈ g.2 →
      (∃ g0 ∈ gs, o ∈ g0.2) ∨ o = op := by
  intro gs
  induction gs with
  | nil =>
    intro k g hg ho
    simp only [addToGroup, List.mem_singleton] at hg
    subst hg
    simp only [List.mem_singleton] at ho
    exact Or.inr ho
  | cons hd tl ih =>
    intro k g hg ho
    obtain ⟨k0, ops⟩ := hd
    simp only [addToGroup] at hg
    by_cases hk : k0 = k
    · rw [if_pos hk] at hg
      rcases List.mem_cons.mp hg with rfl | hg'
      · rcases List.mem_append.mp ho with ho' | ho'
        · exact Or.inl ⟨(k0, ops), List.mem_cons_self _ _, ho'⟩
        · exact Or.inr (List.mem_singleton.mp ho')
      · exact Or.inl ⟨g, List.mem_cons_of_mem _ hg', ho⟩
    · rw [if_neg hk] at hg
      rcases List.mem_cons.mp hg with rfl | hg'
      · exact Or.inl ⟨(k0, ops), List.mem_cons_self _ _, ho⟩
      · rcases ih k g hg' ho with ⟨g0, hg0, ho0⟩ | h
        · exact Or.inl ⟨g0, List.mem_cons_of_mem _ hg0, ho0⟩
        · exact Or.inr h

theorem mem_setGroup (v : List QueuedOperation) (o : QueuedOperation) :
    ∀ (gs : List (String × List QueuedOperation)) (k : String) g,
      g ∈ setGroup gs k v → o ∈ g.2 →
      (∃ g0 ∈ gs, o ∈ g0.2) ∨ o ∈ v := by
  intro gs
  induction gs with
  | nil =>
    intro k g hg ho
    simp only [setGroup, List.mem_singleton] at hg
    subst hg
    exact Or.inr ho
  | cons hd tl ih =>
    intro k g hg ho
    obtain ⟨k0, ops⟩ := hd
    simp only [setGroup] at hg
    by_cases hk : k0 = k
    · rw [if_pos hk] at hg
      rcases List.mem_cons.mp hg with rfl | hg'
      · exact Or.inr ho
      · exact Or.inl ⟨g, List.mem_cons_of_mem _ hg', ho⟩
    · rw [if_neg hk] at hg
      rcases List.mem_cons.mp hg with rfl | hg'
      · exact Or.inl ⟨(k0, ops), List.mem_cons_self _ _, ho⟩
      · rcases ih k g hg' ho with ⟨g0, hg0, ho0⟩ | h
        · exact Or.inl ⟨g0, List.mem_cons_of_mem _ hg0, ho0⟩
        · exact Or.inr h

/-- Operations that `batchOperations` places into a group: `submit` with a
truthy leaderboard id, or `submitBulk`. -/
def isBatchable (op : QueuedOperation) : Prop :=
  (op.method = "submit" ∧ truthyStr op.params.leaderboardId = true) ∨
  op.method = "submitBulk"

theorem mem_buildGroups (o : QueuedOperation) :
    ∀ (q : List QueuedOperation) (gs : List (String × List QueuedOperation))
      g, g ∈ buildGroups q gs → o ∈ g.2 →
      (∃ g0 ∈ gs, o ∈ g0.2) ∨ (o ∈ q ∧ isBatchable o) := by
  intro q
  induction q with
  | nil =>
    intro gs g hg ho
    exact Or.inl ⟨g, hg, ho⟩
  | cons op rest ih =>
    intro gs g hg ho
    rw [buildGroups] at hg
    by_cases h1 : op.method = "submit" ∧ truthyStr op.params.leaderboardId
    · rw [if_pos h1] at hg
      rcases ih _ g hg ho with ⟨g0, hg0, ho0⟩ | ⟨hmem, hb⟩
      · rcases mem_addToGroup op o gs _ g0 hg0 ho0 with h | rfl
        · exact Or.inl h
        · exact Or.inr ⟨List.mem_cons_self _ _, Or.inl h1⟩
      · exact Or.inr ⟨List.mem_cons_of_mem _ hmem, hb⟩
    · rw [if_neg h1] at hg
      by_cases h2 : op.method = "submitBulk"
      · rw [if_pos h2] at hg
        rcases ih _ g hg ho with ⟨g0, hg0, ho0⟩ | ⟨hmem, hb⟩
        · rcases mem_setGroup [op] o gs _ g0 hg0 ho0 with h | hin
          · exact Or.inl h
          · rw [List.mem_singleton] at hin
            subst hin
            exact Or.inr ⟨List.mem_cons_self _ _, Or.inr h2⟩
        · exact Or.inr ⟨List.mem_cons_of_mem _ hmem, hb⟩
      · rw [if_neg h2] at hg
        rcases ih _ g hg ho with h | ⟨hmem, hb⟩
        · exact Or.inl h
        · exact Or.inr ⟨List.mem_cons_of_mem _ hmem, hb⟩

theorem mem_splitGroup (key : String) (i : Nat)
    (ops : List QueuedOperation) (o : QueuedOperation) :
    ∀ g ∈ splitGroup key i ops, o ∈ g.2 → o ∈ ops := by
  induction i, ops using splitGroup.induct key with
  | case1 i' => simp [splitGroup]
  | case2 i' ops' h ih =>
    rw [splitGroup]
    simp only [h, dite_false, List.mem_cons]
    rintro g (rfl | hg) ho
    · exact List.mem_of_mem_take ho
    · exact List.mem_of_mem_drop (ih g hg ho)

theorem mem_limitGroups (gs : List (String × List QueuedOperation))
    (o : QueuedOperation) :
    ∀ g ∈ limitGroups gs, o ∈ g.2 → ∃ g0 ∈ gs, o ∈ g0.2 := by
  intro g hg ho
  rw [limitGroups, List.mem_flatMap] at hg
  obtain ⟨g0, hg0, hsplit⟩ := hg
  by_cases hlen : g0.2.length > MAX_BATCH_SIZE
  · rw [if_pos hlen] at hsplit
    exact ⟨g0, hg0, mem_splitGroup g0.1 0 g0.2 o g hsplit ho⟩
  · rw [if_neg hlen] at hsplit
    rw [List.mem_singleton] at hsplit
    subst hsplit
    exact ⟨g, hg0, ho⟩

end OfflineQueue

/-! ## Sample data shared by the concrete witnesses -/

/-- A representative queued `submit` operation. -/
def sampleSubmitOp : QueuedOperation :=
  { queueId := "q1", timestamp := 0, retryCount := 0, method := "submit",
    params := { userId := some "u", score := some 5,
                leaderboardId := some "L", userName := some "u",
                metadata := none, scores := none } }

/-- A queue of 101 identical submit operations for the same
leaderboard. -/
def sample101Queue : List QueuedOperation := List.replicate 101 sampleSubmitOp

/-- A full queue of 1000 operations. -/
def sampleFullQueue : List QueuedOperation :=
  List.replicate 1000 sampleSubmitOp

/-! ## Claims about the offline queue -/

/-- C2: applied to a fresh queue of N > 100 `submit` operations that all
target the same (non-empty) leaderboard id, `batchOperations` returns
ceil(N/100) groups, each holding at most 100 operations and none empty,
whose in-order concatenation is exactly the original queue (so every
operation appears in exactly one group, in the original order). -/
theorem claim_C2_batch_split (now : Int) (q : List QueuedOperation)
    (lb : String) (hlb : lb ≠ "")
    (hall : ∀ op ∈ q, op.method = "submit" ∧
      op.params.leaderboardId = some lb)
    (hfresh : ∀ op ∈ q, now - op.timestamp < OfflineQueue.QUEUE_TTL_MS)
    (hN : q.length > 100) :
    (OfflineQueue.batchOperations now q).1.length = (q.length + 99) / 100 ∧
    (∀ b ∈ (OfflineQueue.batchOperations now q).1,
      b.2.length ≤ 100 ∧ b.2 ≠ []) ∧
    (((OfflineQueue.batchOperations now q).1.map Prod.snd).flatten = q) := by
  have hclean : OfflineQueue.cleanExpiredItems now q = q := by
    rw [OfflineQueue.cleanExpiredItems, List.filter_eq_self]
    intro a ha
    simpa using hfresh a ha
  have hne : q ≠ [] := by
    intro h
    rw [h] at hN
    simp at hN
  have hbg := OfflineQueue.buildGroups_uniform lb hlb q hne hall
  have hlim : (OfflineQueue.batchOperations now q).1 =
      OfflineQueue.splitGroup lb 0 q := by
    show OfflineQueue.limitGroups
      (OfflineQueue.buildGroups (OfflineQueue.cleanExpiredItems now q) []) =
      OfflineQueue.splitGroup lb 0 q
    rw [hclean, hbg, OfflineQueue.limitGroups]
    simp only [List.flatMap_cons, List.flatMap_nil, List.append_nil]
    rw [if_pos (by simpa [OfflineQueue.MAX_BATCH_SIZE] using hN)]
  refine ⟨?_, ?_, ?_⟩
  · rw [hlim, OfflineQueue.splitGroup_length lb 0 q hne]
  · rw [hlim]
    intro b hb
    have hs := OfflineQueue.splitGroup_sizes lb 0 q b hb
    exact ⟨by simpa [OfflineQueue.MAX_BATCH_SIZE] using hs.1, hs.2⟩
  · rw [hlim]
    exact OfflineQueue.splitGroup_flatten lb 0 q

/-- Witness for C2 at a concrete queue of 101 operations: two batches,
concatenating back to the queue. -/
theorem claim_C2_witness :
    (OfflineQueue.batchOperations 0 sample101Queue).1.length = 2 ∧
    (((OfflineQueue.batchOperations 0 sample101Queue).1.map
      Prod.snd).flatten = sample101Queue) := by
  have h := claim_C2_batch_split 0 sample101Queue "L" (by decide)
    (by decide) (by decide) (by decide)
  refine ⟨?_, h.2.2⟩
  rw [h.1]
  decide

/-- C3: below the 1000-item cap, `enqueue` appends the stamped operation
(size grows by one, the params are stored verbatim), emits `queue:added`
and acknowledges with queued/queueId/position/insert/rank -1; at or above
the cap it rejects with the capacity error, leaving the queue untouched
and emitting nothing. -/
theorem claim_C3_enqueue (q : List QueuedOperation) (method : String)
    (params : QueueParams) (qid : String) (now : Int) :
    (q.length < OfflineQueue.MAX_QUEUE_SIZE →
      OfflineQueue.enqueue q method params qid now =
        Except.ok
          ({ queued := true, queueId := qid, queuePosition := q.length + 1,
             operation := "insert", rank := -1 },
           q ++ [{ queueId := qid, timestamp := now, retryCount := 0,
                   method := method, params := params }],
           [QueueEvent.added { queueId := qid, timestamp := now,
                               retryCount := 0, method := method,
                               params := params }])) ∧
    (q.length ≥ OfflineQueue.MAX_QUEUE_SIZE →
      OfflineQueue.enqueue q method params qid now =
        Except.error "Queue is full (max 1000 items)") := by
  constructor
  · intro h
    rw [OfflineQueue.enqueue, if_neg (by omega)]
    simp
  · intro h
    rw [OfflineQueue.enqueue, if_pos h]

/-- Witness for C3: a concrete successful enqueue into the empty queue and
a concrete capacity rejection at 1000 items. -/
theorem claim_C3_witness :
    OfflineQueue.enqueue [] "submit" sampleSubmitOp.params "01A" 42 =
      Except.ok
        ({ queued := true, queueId := "01A", queuePosition := 1,
           operation := "insert", rank := -1 },
         [{ queueId := "01A", timestamp := 42, retryCount := 0,
            method := "submit", params := sampleSubmitOp.params }],
         [QueueEvent.added { queueId := "01A", timestamp := 42,
                             retryCount := 0, method := "submit",
                             params := sampleSubmitOp.params }]) ∧
    OfflineQueue.enqueue sampleFullQueue "submit" sampleSubmitOp.params
        "01A" 42 = Except.error "Queue is full (max 1000 items)" := by
  constructor
  · exact (claim_C3_enqueue [] "submit" sampleSubmitOp.params "01A" 42).1
      (by decide)
  · exact (claim_C3_enqueue sampleFullQueue "submit" sampleSubmitOp.params
      "01A" 42).2 (by decide)

/-- C9: `submit` rejects a negative score with the invalid-score error
before anything else; with a resolvable (truthy) leaderboard id, the
effective user name (`options.userName || userId`) is checked against the
allow-list pattern first (`INVALID_USERNAME`) and against the 1..50 length
second (`INVALID_USERNAME_LENGTH`); a thrown validation error is never an
enqueue and never a request. -/
theorem claim_C9_submit_validation (ctx : GlobalLeaderboards.SubmitContext)
    (userId : String) (score : Int) (arg : GlobalLeaderboards.SubmitArg)
    (lb : String)
    (hlb : GlobalLeaderboards.orFalsy (GlobalLeaderboards.argLeaderboardId arg)
      ctx.defaultLeaderboardId = some lb)
    (hlbne : lb ≠ "") :
    (score < 0 → GlobalLeaderboards.submit ctx userId score arg =
      GlobalLeaderboards.SubmitOutcome.threw "INVALID_SCORE") ∧
    (0 ≤ score →
      GlobalLeaderboards.userNamePatternTest
        ((GlobalLeaderboards.orFalsy (GlobalLeaderboards.argUserName arg)
          (some userId)).getD userId) = false →
      GlobalLeaderboards.submit ctx userId score arg =
        GlobalLeaderboards.SubmitOutcome.threw "INVALID_USERNAME") ∧
    (0 ≤ score →
      GlobalLeaderboards.userNamePatternTest
        ((GlobalLeaderboards.orFalsy (GlobalLeaderboards.argUserName arg)
          (some userId)).getD userId) = true →
      (((GlobalLeaderboards.orFalsy (GlobalLeaderboards.argUserName arg)
          (some userId)).getD userId).length < 1 ∨
        ((GlobalLeaderboards.orFalsy (GlobalLeaderboards.argUserName arg)
          (some userId)).getD userId).length > 50) →
      GlobalLeaderboards.submit ctx userId score arg =
        GlobalLeaderboards.SubmitOutcome.threw "INVALID_USERNAME_LENGTH") ∧
    (∀ c, GlobalLeaderboards.submit ctx userId score arg =
        GlobalLeaderboards.SubmitOutcome.threw c →
      (∀ p, GlobalLeaderboards.submit ctx userId score arg ≠
        GlobalLeaderboards.SubmitOutcome.enqueued p) ∧
      (∀ r, GlobalLeaderboards.submit ctx userId score arg ≠
        GlobalLeaderboards.SubmitOutcome.sentRequest r)) := by
  refine ⟨?_, ?_, ?_, ?_⟩
  · intro h
    rw [GlobalLeaderboards.submit, if_pos h]
  · intro hs hpat
    rw [GlobalLeaderboards.submit, if_neg (not_lt.mpr hs)]
    simp only [hlb]
    rw [if_neg hlbne, if_pos (by simp [hpat])]
  · intro hs hpat hlen
    rw [GlobalLeaderboards.submit, if_neg (not_lt.mpr hs)]
    simp only [hlb]
    rw [if_neg hlbne, if_neg (by simp [hpat]), if_pos hlen]
  · intro c hc
    constructor
    · intro p hp
      rw [hc] at hp
      exact GlobalLeaderboards.SubmitOutcome.noConfusion hp
    · intro r hr
      rw [hc] at hr
      exact GlobalLeaderboards.SubmitOutcome.noConfusion hr

/-- A 51-character name drawn from the allowed character set. -/
def longName51 : String := String.mk (List.replicate 51 'a')

/-- Witness for C9: a negative score, the empty effective name and a
51-character valid-charset name each hit their distinct error. -/
theorem claim_C9_witness :
    GlobalLeaderboards.submit ⟨some "L", true, false⟩ "u1" (-1)
      GlobalLeaderboards.SubmitArg.noArg =
      GlobalLeaderboards.SubmitOutcome.threw "INVALID_SCORE" ∧
    GlobalLeaderboards.submit ⟨some "L", true, false⟩ "" 10
      GlobalLeaderboards.SubmitArg.noArg =
      GlobalLeaderboards.SubmitOutcome.threw "INVALID_USERNAME" ∧
    GlobalLeaderboards.submit ⟨some "L", true, false⟩ "u1" 10
      (GlobalLeaderboards.SubmitArg.opts none (some longName51) none) =
      GlobalLeaderboards.SubmitOutcome.threw "INVALID_USERNAME_LENGTH" := by
  refine ⟨?_, ?_, ?_⟩
  · exact (claim_C9_submit_validation ⟨some "L", true, false⟩ "u1" (-1)
      GlobalLeaderboards.SubmitArg.noArg "L" (by decide) (by decide)).1
      (by decide)
  · exact (claim_C9_submit_validation ⟨some "L", true, false⟩ "" 10
      GlobalLeaderboards.SubmitArg.noArg "L" (by decide) (by decide)).2.1
      (by decide) (by decide)
  · exact (claim_C9_submit_validation ⟨some "L", true, false⟩ "u1" 10
      (GlobalLeaderboards.SubmitArg.opts none (some longName51) none) "L"
      (by decide) (by decide)).2.2.1 (by decide) (by decide)
      (by decide)

/-- C10: a `submit` operation whose `leaderboardId` is absent or empty is
placed into no batch by `batchOperations`, yet (while unexpired) it stays
in the queue; it disappears only once the 24h TTL cleanup catches it. -/
theorem claim_C10_falsy_leaderboard (now now2 : Int)
    (q : List QueuedOperation) (op : QueuedOperation) (hop : op ∈ q)
    (hm : op.method = "submit")
    (hfalsy : truthyStr op.params.leaderboardId = false)
    (hfresh : now - op.timestamp < OfflineQueue.QUEUE_TTL_MS)
    (hexp : OfflineQueue.QUEUE_TTL_MS ≤ now2 - op.timestamp) :
    op ∈ (OfflineQueue.batchOperations now q).2 ∧
    (∀ b ∈ (OfflineQueue.batchOperations now q).1, op ∉ b.2) ∧
    op ∉ OfflineQueue.cleanExpiredItems now2 q := by
  refine ⟨?_, ?_, ?_⟩
  · show op ∈ OfflineQueue.cleanExpiredItems now q
    rw [OfflineQueue.cleanExpiredItems, List.mem_filter]
    exact ⟨hop, by simpa using hfresh⟩
  · intro b hb hmem
    have hlim := OfflineQueue.mem_limitGroups _ op b hb hmem
    obtain ⟨g0, hg0, ho0⟩ := hlim
    rcases OfflineQueue.mem_buildGroups op _ [] g0 hg0 ho0 with
      ⟨g1, hg1, _⟩ | ⟨_, hbatch⟩
    · simp at hg1
    · rcases hbatch with ⟨_, htruthy⟩ | hbulk
      · rw [hfalsy] at htruthy
        exact Bool.false_ne_true htruthy
      · rw [hm] at hbulk
        exact absurd hbulk (by decide)
  · rw [OfflineQueue.cleanExpiredItems, List.mem_filter]
    rintro ⟨-, hlt⟩
    simp only [decide_eq_true_eq] at hlt
    omega

/-- Operation with an absent leaderboard id, used by the C10 witness. -/
def falsyLbOp : QueuedOperation :=
  { queueId := "q2", timestamp := 0, retryCount := 0, method := "submit",
    params := { userId := some "u", score := some 5, leaderboardId := none,
                userName := some "u", metadata := none, scores := none } }

/-- Witness for C10 at a one-element queue: the operation survives a fresh
`batchOperations` pass but is purged once expired. -/
theorem claim_C10_witness :
    falsyLbOp ∈ (OfflineQueue.batchOperations 0 [falsyLbOp]).2 ∧
    falsyLbOp ∉ OfflineQueue.cleanExpiredItems OfflineQueue.QUEUE_TTL_MS
      [falsyLbOp] := by
  have h := claim_C10_falsy_leaderboard 0 OfflineQueue.QUEUE_TTL_MS
    [falsyLbOp] falsyLbOp (by decide) (by decide) (by decide) (by decide)
    (by decide)
  exact ⟨h.1, h.2.2⟩

/-! ## Drain pass lemmas (for C1) -/

namespace GlobalLeaderboards

theorem find?_queueId_eq_of_nodup (q : List QueuedOperation)
    (op : QueuedOperation)
    (hnd : (q.map QueuedOperation.queueId).Nodup) (hmem : op ∈ q) :
    q.find? (fun o => o.queueId = op.queueId) = some op := by
  induction q with
  | nil => exact absurd hmem (List.not_mem_nil op)
  | cons o rest ih =>
    rw [List.map_cons, List.nodup_cons] at hnd
    by_cases h : o.queueId = op.queueId
    · have hop : o = op := by
        rcases List.mem_cons.mp hmem with rfl | hmem'
        · rfl
        · exact absurd (h ▸ List.mem_map_of_mem QueuedOperation.queueId hmem')
            hnd.1
      rw [List.find?_cons_of_pos _ (by simp [h])]
      rw [hop]
    · rw [List.find?_cons_of_neg _ (by simp [h])]
      rcases List.mem_cons.mp hmem with rfl | hmem'
      · exact absurd rfl h
      · exact ih hnd.2 hmem'

theorem markFailed_perm_found (q : List QueuedOperation)
    (op : QueuedOperation)
    (hnd : (q.map QueuedOperation.queueId).Nodup) (hmem : op ∈ q) :
    OfflineQueue.markFailed q op.queueId true =
      (q.filter (fun o => o.queueId ≠ op.queueId),
       [QueueEvent.failed op true]) := by
  rw [OfflineQueue.markFailed, find?_queueId_eq_of_nodup q op hnd hmem]
  rfl

theorem nodup_queueIds_filter (q : List QueuedOperation)
    (p : QueuedOperation → Bool)
    (hnd : (q.map QueuedOperation.queueId).Nodup) :
    ((q.filter p).map QueuedOperation.queueId).Nodup :=
  ((q.filter_sublist).map QueuedOperation.queueId).nodup hnd

theorem markFailedAll_spec (ops : List QueuedOperation) :
    ∀ (q : List QueuedOperation),
    (q.map QueuedOperation.queueId).Nodup →
    (∀ op ∈ ops, op ∈ q) →
    (ops.map QueuedOperation.queueId).Nodup →
    (markFailedAll q ops).2 =
      ops.map (fun op => QueueEvent.failed op true) ∧
    (∀ o ∈ (markFailedAll q ops).1,
      o ∈ q ∧ o.queueId ∉ ops.map QueuedOperation.queueId) := by
  induction ops with
  | nil =>
    intro q _ _ _
    exact ⟨rfl, fun o ho => ⟨ho, by simp⟩⟩
  | cons op rest ih =>
    intro q hqnd hsub hopsnd
    have hop : op ∈ q := hsub op (List.mem_cons_self op rest)
    rw [List.map_cons, List.nodup_cons] at hopsnd
    have hmf := markFailed_perm_found q op hqnd hop
    have hq1nd : ((q.filter (fun o => o.queueId ≠ op.queueId)).map
        QueuedOperation.queueId).Nodup := nodup_queueIds_filter q _ hqnd
    have hsub1 : ∀ o ∈ rest, o ∈ q.filter (fun o => o.queueId ≠ op.queueId) := by
      intro o ho
      rw [List.mem_filter]
      refine ⟨hsub o (List.mem_cons_of_mem op ho), ?_⟩
      simp only [ne_eq, decide_not, Bool.not_eq_eq_eq_not, Bool.not_true,
        decide_eq_false_iff_not]
      intro heq
      exact hopsnd.1 (heq ▸ List.mem_map_of_mem QueuedOperation.queueId ho)
    have hih := ih _ hq1nd hsub1 hopsnd.2
    rw [markFailedAll]
    rw [hmf]
    constructor
    · simp only [List.map_cons]
      rw [hih.1]
      rfl
    · intro o ho
      have h2 := hih.2 o ho
      have hoq : o ∈ q.filter (fun o => o.queueId ≠ op.queueId) := h2.1
      rw [List.mem_filter] at hoq
      refine ⟨hoq.1, ?_⟩
      rw [List.map_cons, List.mem_cons]
      rintro (heq | hin)
      · revert heq
        simpa using hoq.2
      · exact h2.2 hin

theorem markFailed_queue_subset_perm (q : List QueuedOperation)
    (qid : String) (o : QueuedOperation)
    (ho : o ∈ (OfflineQueue.markFailed q qid true).1) : o ∈ q := by
  rw [OfflineQueue.markFailed] at ho
  cases hfind : q.find? (fun x => x.queueId = qid) with
  | none =>
    rw [hfind] at ho
    exact ho
  | some op =>
    rw [hfind] at ho
    simp only [if_pos] at ho
    exact (List.mem_filter.mp ho).1

theorem markFailed_events_mem_perm (q : List QueuedOperation)
    (qid : String) (o : QueuedOperation) (b : Bool)
    (he : QueueEvent.failed o b ∈ (OfflineQueue.markFailed q qid true).2) :
    o ∈ q := by
  rw [OfflineQueue.markFailed] at he
  cases hfind : q.find? (fun x => x.queueId = qid) with
  | none =>
    rw [hfind] at he
    exact absurd he (List.not_mem_nil _)
  | some op =>
    rw [hfind] at he
    simp only [if_pos, List.mem_singleton] at he
    have hop := List.mem_of_find?_eq_some hfind
    cases he
    exact hop

theorem markFailedAll_queue_subset (ops : List QueuedOperation) :
    ∀ (q : List QueuedOperation) (o : QueuedOperation),
      o ∈ (markFailedAll q ops).1 → o ∈ q := by
  induction ops with
  | nil => intro q o ho; exact ho
  | cons op rest ih =>
    intro q o ho
    rw [markFailedAll] at ho
    exact markFailed_queue_subset_perm q op.queueId o (ih _ o ho)

theorem markFailedAll_events_mem (ops : List QueuedOperation) :
    ∀ (q : List QueuedOperation) (o : QueuedOperation) (b : Bool),
      QueueEvent.failed o b ∈ (markFailedAll q ops).2 → o ∈ q := by
  induction ops with
  | nil =>
    intro q o b he
    exact absurd he (List.not_mem_nil _)
  | cons op rest ih =>
    intro q o b he
    rw [markFailedAll] at he
    rcases List.mem_append.mp he with h1 | h2
    · exact markFailed_events_mem_perm q op.queueId o b h1
    · exact markFailed_queue_subset_perm q op.queueId o (ih _ o b h2)

theorem processPass_queue_subset (outcome : Nat → ReqResult)
    (bs : List (String × List QueuedOperation)) :
    ∀ (i tp : Nat) (q : List QueuedOperation) (o : QueuedOperation),
      o ∈ (processPass outcome i tp bs q).1 → o ∈ q := by
  induction bs with
  | nil => intro i tp q o ho; exact ho
  | cons b rest ih =>
    obtain ⟨key, operations⟩ := b
    intro i tp q o ho
    rw [processPass] at ho
    repeat' split at ho
    all_goals first
      | exact ho
      | exact ih _ _ _ o ho
      | exact (List.mem_filter.mp (ih _ _ _ o ho)).1
      | exact markFailedAll_queue_subset operations _ o (ih _ _ _ o ho)

theorem processPass_events_failed_mem (outcome : Nat → ReqResult)
    (bs : List (String × List QueuedOperation)) :
    ∀ (i tp : Nat) (q : List QueuedOperation) (o : QueuedOperation) (b : Bool),
      QueueEvent.failed o b ∈ (processPass outcome i tp bs q).2 → o ∈ q := by
  induction bs with
  | nil =>
    intro i tp q o b he
    exact absurd he (List.not_mem_nil _)
  | cons bt rest ih =>
    obtain ⟨key, operations⟩ := bt
    intro i tp q o b he
    rw [processPass] at he
    repeat' split at he
    all_goals simp only [List.mem_cons, List.mem_append,
      List.not_mem_nil, or_false, false_or] at he
    all_goals first
      | exact absurd he (List.not_mem_nil _)
      | exact he.elim
      | (rcases he with habs | he2
         · exact absurd habs (by simp)
         · first
           | exact ih _ _ _ o b he2
           | exact (List.mem_filter.mp (ih _ _ _ o b he2)).1)
      | (rcases he with h1 | h2
         · exact markFailedAll_events_mem operations q o b h1
         · exact markFailedAll_queue_subset operations q o (ih _ _ _ o b h2))

theorem processPass_cons_httpError (outcome : Nat → ReqResult)
    (i tp : Nat) (key : String) (ops : List QueuedOperation)
    (rest : List (String × List QueuedOperation))
    (q : List QueuedOperation) (s : Nat)
    (hreq : batchMakesRequest key ops = true)
    (hout : outcome i = ReqResult.httpError s) :
    processPass outcome i tp ((key, ops) :: rest) q =
      if isPermanentStatus s = true then
        ((processPass outcome (i + 1) tp rest (markFailedAll q ops).1).1,
         (markFailedAll q ops).2 ++
           (processPass outcome (i + 1) tp rest (markFailedAll q ops).1).2)
      else (q, []) := by
  rw [processPass]
  by_cases hks : key.startsWith "bulk_" = true
  · rw [if_pos hks]
    rw [batchMakesRequest, if_pos hks] at hreq
    cases hh : ops.head? with
    | none =>
      rw [hh] at hreq
      try simp at hreq
    | some op =>
      rw [hh] at hreq
      dsimp only at hreq
      dsimp only
      cases hsc : op.params.scores with
      | none =>
        rw [hsc] at hreq
        simp at hreq
      | some sc =>
        rw [hout]
  · rw [if_neg hks, hout]

theorem processPass_cons_otherError (outcome : Nat → ReqResult)
    (i tp : Nat) (key : String) (ops : List QueuedOperation)
    (rest : List (String × List QueuedOperation))
    (q : List QueuedOperation)
    (hreq : batchMakesRequest key ops = true)
    (hout : outcome i = ReqResult.otherError) :
    processPass outcome i tp ((key, ops) :: rest) q = (q, []) := by
  rw [processPass]
  by_cases hks : key.startsWith "bulk_" = true
  · rw [if_pos hks]
    rw [batchMakesRequest, if_pos hks] at hreq
    cases hh : ops.head? with
    | none =>
      rw [hh] at hreq
      try simp at hreq
    | some op =>
      rw [hh] at hreq
      dsimp only at hreq
      dsimp only
      cases hsc : op.params.scores with
      | none =>
        rw [hsc] at hreq
        simp at hreq
      | some sc =>
        rw [hout]
  · rw [if_neg hks, hout]

end GlobalLeaderboards

/-- C1: during a drain pass, when the bulk-submit call for a batch fails
with HTTP 401/403/404, every operation of that batch is removed from the
queue for the rest of the pass and exactly one
`queue:failed {operation, permanent := true}` event fires per operation;
when the call fails with any other error (another HTTP status or a
non-HTTP failure), the pass stops with the queue exactly as it was —
every operation keeps its id and no later batch is processed. -/
theorem claim_C1_drain_batch_failure (outcome : Nat → GlobalLeaderboards.ReqResult)
    (i tp : Nat) (key : String) (ops : List QueuedOperation)
    (rest : List (String × List QueuedOperation))
    (q : List QueuedOperation)
    (hreq : GlobalLeaderboards.batchMakesRequest key ops = true)
    (hsub : ∀ op ∈ ops, op ∈ q)
    (hqnd : (q.map QueuedOperation.queueId).Nodup)
    (hopsnd : (ops.map QueuedOperation.queueId).Nodup) :
    (∀ s, outcome i = GlobalLeaderboards.ReqResult.httpError s →
      GlobalLeaderboards.isPermanentStatus s = true →
      (∀ op ∈ ops, ∀ o ∈ (GlobalLeaderboards.processPass outcome i tp
          ((key, ops) :: rest) q).1, o.queueId ≠ op.queueId) ∧
      (∀ op ∈ ops, (GlobalLeaderboards.processPass outcome i tp
          ((key, ops) :: rest) q).2.count (QueueEvent.failed op true) = 1)) ∧
    (∀ s, outcome i = GlobalLeaderboards.ReqResult.httpError s →
      GlobalLeaderboards.isPermanentStatus s = false →
      GlobalLeaderboards.processPass outcome i tp ((key, ops) :: rest) q =
        (q, [])) ∧
    (outcome i = GlobalLeaderboards.ReqResult.otherError →
      GlobalLeaderboards.processPass outcome i tp ((key, ops) :: rest) q =
        (q, [])) := by
  have hspec := GlobalLeaderboards.markFailedAll_spec ops q hqnd hsub hopsnd
  refine ⟨?_, ?_, ?_⟩
  · intro s hout hperm
    have he := GlobalLeaderboards.processPass_cons_httpError outcome i tp key
      ops rest q s hreq hout
    rw [if_pos hperm] at he
    constructor
    · intro op hop o ho
      rw [he] at ho
      have ho2 : o ∈ (GlobalLeaderboards.processPass outcome (i + 1) tp rest
          (GlobalLeaderboards.markFailedAll q ops).1).1 := ho
      have h2 := GlobalLeaderboards.processPass_queue_subset outcome rest
        _ _ _ o ho2
      have h3 := hspec.2 o h2
      intro heq
      refine h3.2 ?_
      rw [heq]
      exact List.mem_map_of_mem QueuedOperation.queueId hop
    · intro op hop
      rw [he]
      show ((GlobalLeaderboards.markFailedAll q ops).2 ++
        (GlobalLeaderboards.processPass outcome (i + 1) tp rest
          (GlobalLeaderboards.markFailedAll q ops).1).2).count
        (QueueEvent.failed op true) = 1
      rw [List.count_append, hspec.1]
      have hinj : Function.Injective
          (fun op => QueueEvent.failed op true) := by
        intro a b hab
        simpa using hab
      rw [List.count_map_of_injective _ _ hinj]
      rw [List.count_eq_one_of_mem (List.Nodup.of_map _ hopsnd) hop]
      have hzero : (GlobalLeaderboards.processPass outcome (i + 1) tp rest
          (GlobalLeaderboards.markFailedAll q ops).1).2.count
          (QueueEvent.failed op true) = 0 := by
        rw [List.count_eq_zero]
        intro hmem
        have hoq := GlobalLeaderboards.processPass_events_failed_mem outcome
          rest _ _ _ op true hmem
        exact (hspec.2 op hoq).2 (List.mem_map_of_mem _ hop)
      rw [hzero]
  · intro s hout hperm
    have he := GlobalLeaderboards.processPass_cons_httpError outcome i tp key
      ops rest q s hreq hout
    rw [if_neg (by simp [hperm])] at he
    exact he
  · intro hout
    exact GlobalLeaderboards.processPass_cons_otherError outcome i tp key ops
      rest q hreq hout

/-- First operation of the C1 witness batch. -/
def c1OpA : QueuedOperation :=
  { queueId := "a1", timestamp := 0, retryCount := 0, method := "submit",
    params := { userId := some "u1", score := some 5,
                leaderboardId := some "L", userName := some "u1",
                metadata := none, scores := none } }

/-- Second operation of the C1 witness batch. -/
def c1OpB : QueuedOperation :=
  { queueId := "b2", timestamp := 0, retryCount := 0, method := "submit",
    params := { userId := some "u2", score := some 7,
                leaderboardId := some "L", userName := some "u2",
                metadata := none, scores := none } }

/-- Witness for C1 at a two-operation batch: a 401 produces exactly one
permanent `queue:failed` event per operation, a 500 and a non-HTTP error
leave the whole pass untouched. -/
theorem claim_C1_witness :
    (GlobalLeaderboards.processPass
      (fun _ => GlobalLeaderboards.ReqResult.httpError 401) 0 0
      [("L", [c1OpA, c1OpB])] [c1OpA, c1OpB]).2.count
      (QueueEvent.failed c1OpA true) = 1 ∧
    (GlobalLeaderboards.processPass
      (fun _ => GlobalLeaderboards.ReqResult.httpError 401) 0 0
      [("L", [c1OpA, c1OpB])] [c1OpA, c1OpB]).2.count
      (QueueEvent.failed c1OpB true) = 1 ∧
    GlobalLeaderboards.processPass
      (fun _ => GlobalLeaderboards.ReqResult.httpError 500) 0 0
      [("L", [c1OpA, c1OpB])] [c1OpA, c1OpB] = ([c1OpA, c1OpB], []) ∧
    GlobalLeaderboards.processPass
      (fun _ => GlobalLeaderboards.ReqResult.otherError) 0 0
      [("L", [c1OpA, c1OpB])] [c1OpA, c1OpB] = ([c1OpA, c1OpB], []) := by
  have h401 := claim_C1_drain_batch_failure
    (fun _ => GlobalLeaderboards.ReqResult.httpError 401) 0 0 "L"
    [c1OpA, c1OpB] [] [c1OpA, c1OpB] (by decide) (by decide) (by decide)
    (by decide)
  have h500 := claim_C1_drain_batch_failure
    (fun _ => GlobalLeaderboards.ReqResult.httpError 500) 0 0 "L"
    [c1OpA, c1OpB] [] [c1OpA, c1OpB] (by decide) (by decide) (by decide)
    (by decide)
  have hoth := claim_C1_drain_batch_failure
    (fun _ => GlobalLeaderboards.ReqResult.otherError) 0 0 "L"
    [c1OpA, c1OpB] [] [c1OpA, c1OpB] (by decide) (by decide) (by decide)
    (by decide)
  refine ⟨?_, ?_, ?_, ?_⟩
  · exact (h401.1 401 rfl (by decide)).2 c1OpA (by decide)
  · exact (h401.1 401 rfl (by decide)).2 c1OpB (by decide)
  · exact h500.2.1 500 rfl (by decide)
  · exact hoth.2.2 rfl

/-! ## Claims about the WebSocket client -/

/-- A client state whose transport is gone while one topic is still
subscribed, as left behind by a connection loss. -/
def c4State : LeaderboardWebSocket.WsState :=
  { LeaderboardWebSocket.initState with
      subscribedLeaderboards := ["lb1"] }

/-- Counterexample to C4 as stated: with no transport (`ws = null`) and
`"lb1"` in the subscription set, `unsubscribe("lb1")` leaves the topic in
the set — it is not removed "regardless". -/
theorem claim_C4_counterexample :
    c4State.ws = none ∧
    "lb1" ∈ c4State.subscribedLeaderboards ∧
    "lb1" ∈ (LeaderboardWebSocket.unsubscribeFn c4State
      "lb1").1.subscribedLeaderboards := by
  refine ⟨rfl, by decide, ?_⟩
  rw [LeaderboardWebSocket.unsubscribeFn, if_pos (by decide)]
  decide

/-- C4 (amended): when the transport is absent or not open, `unsubscribe`
is a complete no-op — it neither sends nor removes the topic; only with an
open transport does it send the unsubscribe control message and remove the
topic from the subscription set. -/
theorem claim_C4_unsubscribe_amended (st : LeaderboardWebSocket.WsState)
    (topic : String) :
    (LeaderboardWebSocket.isConnected st = false →
      LeaderboardWebSocket.unsubscribeFn st topic = (st, [])) ∧
    (LeaderboardWebSocket.isConnected st = true →
      LeaderboardWebSocket.unsubscribeFn st topic =
        ({ st with subscribedLeaderboards :=
             LeaderboardWebSocket.delSet st.subscribedLeaderboards topic },
         [LeaderboardWebSocket.WsOutput.sent
           (LeaderboardWebSocket.OutMsg.unsubscribeMsg topic)])) := by
  constructor
  · intro h
    rw [LeaderboardWebSocket.unsubscribeFn, if_pos (by simp [h])]
  · intro h
    rw [LeaderboardWebSocket.unsubscribeFn, if_neg (by simp [h])]

/-- Witness for C4's amended theorem: a no-op on the transportless state
and a real removal on an open one. -/
theorem claim_C4_witness :
    LeaderboardWebSocket.unsubscribeFn c4State "lb1" = (c4State, []) ∧
    (LeaderboardWebSocket.unsubscribeFn
      { c4State with ws := some LeaderboardWebSocket.WsReadyState.open }
      "lb1").1.subscribedLeaderboards = [] := by
  constructor
  · exact (claim_C4_unsubscribe_amended c4State "lb1").1 (by decide)
  · rw [(claim_C4_unsubscribe_amended
      { c4State with ws := some LeaderboardWebSocket.WsReadyState.open }
      "lb1").2 (by decide)]
    decide

/-- A disconnected, idle client observed while the environment is
offline; no permanent error is stored. -/
def c6OfflineState : LeaderboardWebSocket.WsState :=
  { LeaderboardWebSocket.initState with isOnline := false }

/-- Counterexample to C6 as stated: in an offline state with no stored
permanent error, neither connected nor connecting, `reconnect()` does not
issue a fresh `connect()` — it resets the attempt counter and then throws
`WS_OFFLINE` instead. -/
theorem claim_C6_counterexample :
    c6OfflineState.permanentError = none ∧
    LeaderboardWebSocket.isConnected c6OfflineState = false ∧
    c6OfflineState.isConnecting = false ∧
    (LeaderboardWebSocket.reconnectFn c6OfflineState).2.2 = false ∧
    (LeaderboardWebSocket.reconnectFn c6OfflineState).2.1 =
      [LeaderboardWebSocket.WsOutput.threw "WS_OFFLINE"] := by
  refine ⟨rfl, by decide, rfl, ?_, ?_⟩ <;> decide

/-- C6 (amended): in a state that is neither connected nor connecting,
`reconnect()` throws the stored permanent error, touching nothing and
attempting no connection, when one exists; with no permanent error it
resets the attempt counter to 0 and — only when the environment is online
— issues a fresh `connect()`; when offline it instead throws `WS_OFFLINE`
without connecting. -/
theorem claim_C6_reconnect_amended (st : LeaderboardWebSocket.WsState) :
    (∀ code, LeaderboardWebSocket.isConnected st = false →
      st.isConnecting = false → st.permanentError = some code →
      LeaderboardWebSocket.reconnectFn st =
        (st, [LeaderboardWebSocket.WsOutput.threw code], false)) ∧
    (LeaderboardWebSocket.isConnected st = false →
      st.isConnecting = false → st.permanentError = none →
      st.isOnline = true →
      (LeaderboardWebSocket.reconnectFn st).1.reconnectAttempts = 0 ∧
      (LeaderboardWebSocket.reconnectFn st).2.2 = true ∧
      (LeaderboardWebSocket.reconnectFn st).2.1 =
        [LeaderboardWebSocket.WsOutput.connectAttempt]) ∧
    (LeaderboardWebSocket.isConnected st = false →
      st.isConnecting = false → st.permanentError = none →
      st.isOnline = false →
      LeaderboardWebSocket.reconnectFn st =
        ({ st with reconnectAttempts := 0, shouldReconnect := true },
         [LeaderboardWebSocket.WsOutput.threw "WS_OFFLINE"], false)) := by
  refine ⟨?_, ?_, ?_⟩
  · intro code hc hic hpe
    rw [LeaderboardWebSocket.reconnectFn, if_neg (by simp [hc, hic]), hpe]
  · intro hc hic hpe hon
    rw [LeaderboardWebSocket.reconnectFn, if_neg (by simp [hc, hic]), hpe]
    dsimp only
    rw [if_neg (by simp [hon])]
    rw [LeaderboardWebSocket.connectFn]
    rw [if_neg (by
      simp only [LeaderboardWebSocket.isConnected] at hc ⊢
      simp [hc, hic])]
    exact ⟨rfl, rfl, rfl⟩
  · intro hc hic hpe hoff
    rw [LeaderboardWebSocket.reconnectFn, if_neg (by simp [hc, hic]), hpe]
    rw [if_pos (by simp [hoff])]

/-- A disconnected client holding a stored permanent error. -/
def c6PermState : LeaderboardWebSocket.WsState :=
  { LeaderboardWebSocket.initState with
      permanentError := some "INVALID_API_KEY", shouldReconnect := false }

/-- Witness for C6's amended theorem: the stored permanent error is
rethrown without connecting; a fresh online reconnect resets the counter
and connects; an offline reconnect throws `WS_OFFLINE`. -/
theorem claim_C6_witness :
    LeaderboardWebSocket.reconnectFn c6PermState =
      (c6PermState,
       [LeaderboardWebSocket.WsOutput.threw "INVALID_API_KEY"], false) ∧
    ((LeaderboardWebSocket.reconnectFn
        LeaderboardWebSocket.initState).1.reconnectAttempts = 0 ∧
     (LeaderboardWebSocket.reconnectFn
        LeaderboardWebSocket.initState).2.2 = true) ∧
    LeaderboardWebSocket.reconnectFn c6OfflineState =
      ({ c6OfflineState with reconnectAttempts := 0,
                             shouldReconnect := true },
       [LeaderboardWebSocket.WsOutput.threw "WS_OFFLINE"], false) := by
  refine ⟨?_, ?_, ?_⟩
  · exact (claim_C6_reconnect_amended c6PermState).1 "INVALID_API_KEY"
      (by decide) (by decide) (by decide)
  · have h := (claim_C6_reconnect_amended LeaderboardWebSocket.initState).2.1
      (by decide) (by decide) (by decide) (by decide)
    exact ⟨h.1, h.2.1⟩
  · exact (claim_C6_reconnect_amended c6OfflineState).2.2 (by decide)
      (by decide) (by decide) (by decide)

/-- C8: with base delay 1000 ms and a 5-attempt budget, an online
`scheduleReconnect` for attempt `a` in 1..5 (attempt counter at `a - 1`)
arms the timer with a delay in `[2^(a-1)*1000*0.75, 2^(a-1)*1000*1.25]`,
never negative, and notifies the `onReconnecting` observer with the
attempt number, the maximum and the rounded delay. -/
theorem claim_C8_reconnect_delay (st : LeaderboardWebSocket.WsState)
    (a : Nat) (r : ℚ) (honline : st.isOnline = true)
    (hdelay : st.reconnectDelay = 1000) (hmax : st.maxReconnectAttempts = 5)
    (hatt : st.reconnectAttempts = a - 1) (ha1 : 1 ≤ a) (ha5 : a ≤ 5)
    (hr0 : 0 ≤ r) (hr1 : r < 1) :
    LeaderboardWebSocket.scheduleReconnect st r =
      ({ st with reconnectAttempts := a,
                 reconnectTimer :=
                   some (LeaderboardWebSocket.reconnectDelayFor 1000 a r) },
       [LeaderboardWebSocket.WsOutput.onReconnectingCalled a 5
         (round (LeaderboardWebSocket.reconnectDelayFor 1000 a r))]) ∧
    0 ≤ LeaderboardWebSocket.reconnectDelayFor 1000 a r ∧
    (2 ^ (a - 1) * 1000 * (3 / 4) : ℚ) ≤
      LeaderboardWebSocket.reconnectDelayFor 1000 a r ∧
    LeaderboardWebSocket.reconnectDelayFor 1000 a r ≤
      2 ^ (a - 1) * 1000 * (5 / 4) := by
  have hplus : st.reconnectAttempts + 1 = a := by omega
  constructor
  · rw [LeaderboardWebSocket.scheduleReconnect, if_neg (by simp [honline]),
        if_neg (by rw [hatt, hmax]; omega)]
    rw [hdelay, hmax, hplus]
  · have h2 : (0 : ℚ) < 2 ^ (a - 1) := by positivity
    rw [LeaderboardWebSocket.reconnectDelayFor]
    have hlow : (2 : ℚ) ^ (a - 1) * 1000 * (3 / 4) ≤
        1000 * 2 ^ (a - 1) +
          (r - 1 / 2) * 2 * (1000 * 2 ^ (a - 1) * (1 / 4)) := by
      nlinarith
    have hhigh : 1000 * 2 ^ (a - 1) +
        (r - 1 / 2) * 2 * (1000 * 2 ^ (a - 1) * (1 / 4)) ≤
        (2 : ℚ) ^ (a - 1) * 1000 * (5 / 4) := by
      nlinarith
    have h0 : (0 : ℚ) ≤ 1000 * 2 ^ (a - 1) +
        (r - 1 / 2) * 2 * (1000 * 2 ^ (a - 1) * (1 / 4)) := by
      nlinarith
    rw [max_eq_right h0]
    exact ⟨h0, hlow, hhigh⟩

/-- Witness for C8 at the initial state, first attempt, jitter source 0:
delay 750 ms, within the band `[750, 1250]`. -/
theorem claim_C8_witness :
    LeaderboardWebSocket.scheduleReconnect LeaderboardWebSocket.initState 0 =
      ({ LeaderboardWebSocket.initState with
           reconnectAttempts := 1,
           reconnectTimer :=
             some (LeaderboardWebSocket.reconnectDelayFor 1000 1 0) },
       [LeaderboardWebSocket.WsOutput.onReconnectingCalled 1 5
         (round (LeaderboardWebSocket.reconnectDelayFor 1000 1 0))]) ∧
    (2 ^ (1 - 1) * 1000 * (3 / 4) : ℚ) ≤
      LeaderboardWebSocket.reconnectDelayFor 1000 1 0 ∧
    LeaderboardWebSocket.reconnectDelayFor 1000 1 0 ≤
      2 ^ (1 - 1) * 1000 * (5 / 4) := by
  have h := claim_C8_reconnect_delay LeaderboardWebSocket.initState 1 0
    (by decide) (by decide) (by decide) (by decide) (by decide) (by decide)
    (by decide) (by decide)
  exact ⟨h.1, h.2.2.1, h.2.2.2⟩

/-! ## Invariant machinery for C5 and C7 -/

namespace LeaderboardWebSocket

/-- The C5 invariant: a stored permanent error implies reconnection is
disabled. -/
def PermInv (st : WsState) : Prop :=
  st.permanentError.isSome = true → st.shouldReconnect = false

theorem permInv_connectFn (st : WsState) (lb : Option String) (ok : Bool)
    (h : PermInv st) : PermInv (connectFn st lb ok).1 := by
  rw [connectFn.eq_def]
  by_cases hg : (isConnected st || st.isConnecting) = true
  · rw [if_pos hg]
    exact h
  · rw [if_neg hg]
    cases ok
    · intro habs
      simp at habs
    · intro habs
      simp at habs

theorem permInv_scheduleReconnect (st : WsState) (r : ℚ) (h : PermInv st) :
    PermInv (scheduleReconnect st r).1 := by
  rw [scheduleReconnect]
  split_ifs with h1 h2
  · exact h
  · exact h
  · exact fun habs => h habs

theorem permInv_handleClose (st : WsState) (r : ℚ) (h : PermInv st) :
    PermInv (handleClose st r).1 := by
  rw [handleClose]
  dsimp only
  split_ifs with hsr
  · exact permInv_scheduleReconnect _ r (fun habs => h habs)
  · exact fun habs => h habs

theorem permInv_reconnectFn (st : WsState) (h : PermInv st) :
    PermInv (reconnectFn st).1 := by
  rw [reconnectFn]
  by_cases hg : (isConnected st || st.isConnecting) = true
  · rw [if_pos hg]
    exact h
  · rw [if_neg hg]
    cases hpe : st.permanentError with
    | some code => exact h
    | none =>
      dsimp only
      by_cases hon : st.isOnline = true
      · rw [if_neg (by simp [hon])]
        exact permInv_connectFn _ none true
          (fun habs => by simp at habs)
      · rw [if_pos (by simp at hon ⊢; simp [hon])]
        intro habs
        simp at habs

theorem permInv_handleOnline (st : WsState) (h : PermInv st) :
    PermInv (handleOnline st).1 := by
  rw [handleOnline]
  dsimp only
  cases hpe : st.permanentError with
  | some code => exact fun _ => h (by rw [hpe]; rfl)
  | none =>
    split_ifs with hcond
    all_goals first
      | exact permInv_connectFn _ none true
          (fun habs => by simp [hpe] at habs)
      | exact fun habs => by simp [hpe] at habs

theorem permInv_reconnectTimerFire (st : WsState) (r : ℚ) (h : PermInv st) :
    PermInv (reconnectTimerFire st r).1 := by
  rw [reconnectTimerFire]
  cases htm : st.reconnectTimer with
  | none => exact h
  | some d =>
    dsimp only
    split_ifs with hon
    · exact permInv_connectFn _ none true (fun habs => h habs)
    · exact permInv_scheduleReconnect _ r (fun habs => h habs)

theorem permInv_handleMessage (st : WsState) (msg : InMsg) (h : PermInv st) :
    PermInv (handleMessage st msg).1 := by
  cases msg with
  | leaderboardUpdate => exact h
  | userRankUpdate => exact h
  | ping => exact h
  | pong => exact h
  | connectionInfo => exact h
  | otherKind => exact h
  | errorMsg err =>
    cases err with
    | none => exact h
    | some eo =>
      rw [handleMessage]
      by_cases hc : (eo.code.getD "UNKNOWN_ERROR") ∈ permanentErrorCodes
      · rw [if_pos hc]
        dsimp only
        split_ifs with hw
        · exact fun _ => rfl
        · exact fun _ => rfl
      · rw [if_neg hc]
        exact h

theorem step_permInv (st : WsState) (e : WsEvent) (h : PermInv st) :
    PermInv (step st e).1 := by
  cases e with
  | connect lb ok => exact permInv_connectFn st lb ok h
  | disconnect => exact fun _ => rfl
  | reconnect => exact permInv_reconnectFn st h
  | subscribe lb uid =>
    rw [step, subscribeFn]
    split_ifs with hg
    · exact h
    · exact fun habs => h habs
  | unsubscribe lb =>
    rw [step, unsubscribeFn]
    split_ifs with hg
    · exact h
    · exact fun habs => h habs
  | wsOpen =>
    rw [step, handleOpen]
    cases hws : st.ws with
    | none => exact h
    | some rs =>
      cases rs with
      | connecting => exact fun habs => h habs
      | «open» => exact h
      | closing => exact h
      | closed => exact h
  | wsClose r => exact permInv_handleClose st r h
  | wsMessage msg => exact permInv_handleMessage st msg h
  | netOnline => exact permInv_handleOnline st h
  | netOffline => exact fun habs => h habs
  | timerFire r => exact permInv_reconnectTimerFire st r h
  | pingFire =>
    rw [step, pingTimerFire]
    split_ifs with hg
    · exact h
    · exact h

theorem run_permInv (evs : List WsEvent) :
    ∀ st : WsState, PermInv st → PermInv (run st evs).1 := by
  induction evs with
  | nil => intro st h; exact h
  | cons e rest ih =>
    intro st h
    exact ih (step st e).1 (step_permInv st e h)

end LeaderboardWebSocket

/-- Events other than explicit `connect`/`reconnect` API calls: transport
events, inbound messages, connectivity transitions, timer firings and the
remaining API calls. -/
def nonConnectEvent : LeaderboardWebSocket.WsEvent → Bool
  | LeaderboardWebSocket.WsEvent.connect _ _ => false
  | LeaderboardWebSocket.WsEvent.reconnect => false
  | _ => true

namespace LeaderboardWebSocket

/-- The C7 invariant: reconnection disabled and no pending reconnect
timer. -/
def QuietInv (st : WsState) : Prop :=
  st.shouldReconnect = false ∧ st.reconnectTimer = none

theorem step_quiet (st : WsState) (e : WsEvent) (h : QuietInv st)
    (he : nonConnectEvent e = true) :
    QuietInv (step st e).1 ∧ WsOutput.connectAttempt ∉ (step st e).2 := by
  cases e with
  | connect lb ok => simp [nonConnectEvent] at he
  | reconnect => simp [nonConnectEvent] at he
  | disconnect =>
    exact ⟨⟨rfl, rfl⟩, by simp [step]⟩
  | subscribe lb uid =>
    rw [step, subscribeFn]
    split_ifs with hg
    · exact ⟨h, by simp⟩
    · exact ⟨⟨h.1, h.2⟩, by simp⟩
  | unsubscribe lb =>
    rw [step, unsubscribeFn]
    split_ifs with hg
    · exact ⟨h, by simp⟩
    · exact ⟨⟨h.1, h.2⟩, by simp⟩
  | wsOpen =>
    rw [step, handleOpen]
    cases hws : st.ws with
    | none => exact ⟨h, by simp⟩
    | some rs =>
      cases rs with
      | connecting =>
        refine ⟨⟨h.1, h.2⟩, ?_⟩
        dsimp only
        intro hmem
        rcases List.mem_cons.mp hmem with habs | hmem2
        · exact WsOutput.noConfusion habs
        · obtain ⟨lb, -, habs⟩ := List.mem_map.mp hmem2
          exact WsOutput.noConfusion habs
      | «open» => exact ⟨h, by simp⟩
      | closing => exact ⟨h, by simp⟩
      | closed => exact ⟨h, by simp⟩
  | wsClose r =>
    rw [step, handleClose]
    dsimp only
    split_ifs with hsr
    · exact absurd hsr (by simp [h.1])
    · exact ⟨⟨h.1, h.2⟩, by simp⟩
  | wsMessage msg =>
    rw [step]
    cases msg with
    | leaderboardUpdate => exact ⟨h, by simp [handleMessage]⟩
    | userRankUpdate => exact ⟨h, by simp [handleMessage]⟩
    | pong => exact ⟨h, by simp [handleMessage]⟩
    | connectionInfo => exact ⟨h, by simp [handleMessage]⟩
    | otherKind => exact ⟨h, by simp [handleMessage]⟩
    | ping =>
      rw [handleMessage, sendFn]
      split_ifs with hg
      · exact ⟨h, by simp⟩
      · exact ⟨h, by simp⟩
    | errorMsg err =>
      cases err with
      | none => exact ⟨h, by simp [handleMessage]⟩
      | some eo =>
        rw [handleMessage]
        by_cases hc : (eo.code.getD "UNKNOWN_ERROR") ∈ permanentErrorCodes
        · rw [if_pos hc]
          dsimp only
          split_ifs with hw
          · exact ⟨⟨rfl, h.2⟩, by simp⟩
          · exact ⟨⟨rfl, h.2⟩, by simp⟩
        · rw [if_neg hc]
          exact ⟨h, by simp⟩
  | netOnline =>
    rw [step, handleOnline]
    dsimp only
    cases hpe : st.permanentError with
    | some code => exact ⟨⟨h.1, h.2⟩, by simp⟩
    | none =>
      split_ifs with hcond
      · exact absurd hcond.2.2 (by simp [h.1])
      · exact ⟨⟨h.1, h.2⟩, by simp⟩
  | netOffline =>
    exact ⟨⟨h.1, rfl⟩, by simp [step]⟩
  | timerFire r =>
    rw [step, reconnectTimerFire, h.2]
    exact ⟨h, by simp⟩
  | pingFire =>
    rw [step, pingTimerFire]
    split_ifs with hg
    · exact ⟨h, by simp⟩
    · exact ⟨h, by simp⟩

theorem run_quiet (evs : List WsEvent) :
    ∀ st : WsState, QuietInv st → (∀ e ∈ evs, nonConnectEvent e = true) →
    WsOutput.connectAttempt ∉ (run st evs).2 := by
  induction evs with
  | nil =>
    intro st _ _ hmem
    exact absurd hmem (List.not_mem_nil _)
  | cons e rest ih =>
    intro st h hall hmem
    have hstep := step_quiet st e h (hall e (List.mem_cons_self e rest))
    rcases List.mem_append.mp hmem with h1 | h2
    · exact hstep.2 h1
    · exact ih (step st e).1 hstep.1
        (fun e2 he2 => hall e2 (List.mem_cons_of_mem e he2)) h2

end LeaderboardWebSocket

/-- C7: right after `disconnect()` no reconnect timer and no heartbeat
timer remain, and no later sequence of transport events, messages, timer
firings or connectivity transitions (with no explicit `connect` or
`reconnect` call) can ever produce a new connection attempt. -/
theorem claim_C7_disconnect_no_resurrection
    (st : LeaderboardWebSocket.WsState)
    (evs : List LeaderboardWebSocket.WsEvent)
    (hevs : ∀ e ∈ evs, nonConnectEvent e = true) :
    (LeaderboardWebSocket.disconnectFn st).reconnectTimer = none ∧
    (LeaderboardWebSocket.disconnectFn st).pingTimer = false ∧
    LeaderboardWebSocket.WsOutput.connectAttempt ∉
      (LeaderboardWebSocket.run (LeaderboardWebSocket.disconnectFn st)
        evs).2 :=
  ⟨rfl, rfl,
   LeaderboardWebSocket.run_quiet evs (LeaderboardWebSocket.disconnectFn st)
     ⟨rfl, rfl⟩ hevs⟩

/-- Witness for C7: after disconnecting a connected client, a close event,
an online transition, a stale timer firing and a heartbeat firing produce
no connection attempt. -/
theorem claim_C7_witness :
    LeaderboardWebSocket.WsOutput.connectAttempt ∉
      (LeaderboardWebSocket.run
        (LeaderboardWebSocket.disconnectFn
          { LeaderboardWebSocket.initState with
              ws := some LeaderboardWebSocket.WsReadyState.open,
              pingTimer := true })
        [LeaderboardWebSocket.WsEvent.wsClose 0,
         LeaderboardWebSocket.WsEvent.netOnline,
         LeaderboardWebSocket.WsEvent.timerFire 0,
         LeaderboardWebSocket.WsEvent.pingFire]).2 :=
  (claim_C7_disconnect_no_resurrection
    { LeaderboardWebSocket.initState with
        ws := some LeaderboardWebSocket.WsReadyState.open,
        pingTimer := true }
    [LeaderboardWebSocket.WsEvent.wsClose 0,
     LeaderboardWebSocket.WsEvent.netOnline,
     LeaderboardWebSocket.WsEvent.timerFire 0,
     LeaderboardWebSocket.WsEvent.pingFire]
    (by decide)).2.2

/-- C5: in every state reachable from the freshly constructed client by
any sequence of API calls, transport events, inbound messages,
connectivity transitions and timer firings, a stored `permanentError`
implies `shouldReconnect = false`. -/
theorem claim_C5_permanent_error_invariant
    (evs : List LeaderboardWebSocket.WsEvent) :
    (LeaderboardWebSocket.run LeaderboardWebSocket.initState
      evs).1.permanentError.isSome = true →
    (LeaderboardWebSocket.run LeaderboardWebSocket.initState
      evs).1.shouldReconnect = false :=
  LeaderboardWebSocket.run_permInv evs LeaderboardWebSocket.initState
    (fun habs => by simp [LeaderboardWebSocket.initState] at habs)

/-- Witness for C5: after an inbound `INVALID_API_KEY` error message the
permanent error is stored and reconnection is disabled. -/
theorem claim_C5_witness :
    (LeaderboardWebSocket.run LeaderboardWebSocket.initState
      [LeaderboardWebSocket.WsEvent.wsMessage
        (LeaderboardWebSocket.InMsg.errorMsg
          (some { message := "bad key", code := some "INVALID_API_KEY" }))]
      ).1.shouldReconnect = false :=
  claim_C5_permanent_error_invariant
    [LeaderboardWebSocket.WsEvent.wsMessage
      (LeaderboardWebSocket.InMsg.errorMsg
        (some { message := "bad key", code := some "INVALID_API_KEY" }))]
    (by decide)

end SdkModel
